import Mathlib

/-!
Shallow embedding of the booking core of the ParkPal parking-marketplace app
(`src/lib/bookings.ts`, the `handleBooking` overlap pre-check in the listing
detail screen, and the data model it manipulates), together with theorems
settling the spec claims about it.

Modelling conventions:
* Timestamps (ISO strings / `Date` values in the source) are modelled as `Int`
  milliseconds; `Date` comparison in JS is comparison of these values.
* The Firestore `bookings` collection is a `List Booking`; `addDoc` appends,
  `updateDoc` merges fields into the matching document, document ids are `Nat`.
* Asynchronous Firestore operations that can throw are modelled as pure
  functions returning `Except`; the outcome of a raw `getDocs` call that may
  fail is passed in explicitly where a claim is about error handling.
* `serverTimestamp()` and `new Date()` are modelled by an explicit `now : Int`
  parameter threaded through each operation.
-/

namespace ParkPal

/-- Booking status, from the `Booking.status` union type in `lib/bookings.ts`:
`'pending' | 'confirmed' | 'cancelled' | 'completed'`. -/
inductive BookingStatus where
  | pending
  | confirmed
  | cancelled
  | completed
deriving DecidableEq, Repr

/-- A document of the `bookings` collection, from the `Booking` type in
`lib/bookings.ts` (plus the `updated_at` field that `updateBookingStatus`
merges into the document). -/
structure Booking where
  id : Nat
  user_id : String
  host_id : String
  listing_id : String
  start_time : Int
  end_time : Int
  total_price : Int
  status : BookingStatus
  created_at : Int
  cancelled_at : Option Int := none
  updated_at : Option Int := none
deriving DecidableEq, Repr

/-- Caller-supplied input to `createBooking`, from the `BookingData` type in
`lib/bookings.ts`. `host_id` is optional there; `total_price : Option Int`
models the JS value being a number (`some`) or missing/`NaN` (`none`), which
`createBooking` coerces to `0`. -/
structure BookingData where
  listing_id : String
  user_id : String
  host_id : Option String := none
  start_time : Int
  end_time : Int
  total_price : Option Int := none
deriving DecidableEq, Repr

/-- The projection of a `listings` document that the booking core reads:
`createBooking` reads `host_id`, `updateBookingStatus` reads `title`
(`lib/listings.ts` holds the full shape). -/
structure Listing where
  id : String
  host_id : String
  title : String
deriving DecidableEq, Repr

/-- One `createNotification` call recorded by the booking core: recipient,
notification type string, and message (`lib/notifications.ts`,
`NotificationData`). -/
structure NotificationMsg where
  user_id : String
  ntype : String
  message : String
  booking_id : Nat
  listing_id : String
deriving DecidableEq, Repr

/-- Errors thrown by the booking repository, following the `throw new Error`
sites of `lib/bookings.ts` (the spec groups them as ValidationError /
NotFoundError). -/
inductive BookingError where
  | authRequired
  | startNotBeforeEnd
  | listingNotFound
  | bookingNotFound
deriving DecidableEq, Repr

/-- Error thrown by a Firestore query, as the booking core distinguishes it:
a `FirebaseError` with its `code`, or anything else. -/
inductive QueryError where
  | firebase (code : String)
  | other (msg : String)
deriving DecidableEq, Repr

/-- A booking counts against availability iff its status is in
`{pending, confirmed}` — the `where('status', 'in', [...])` clause of
`getOverlappingBookings`. -/
def accepted (b : Booking) : Bool :=
  b.status == .pending || b.status == .confirmed

/-- The in-memory overlap test of `getOverlappingBookings`
(`lib/bookings.ts:172`): existing `[s, e)` against requested `[S, E)`,
`bookingEnd > requestStart && bookingStart < requestEnd`. -/
def overlaps (s e S E : Int) : Bool :=
  decide (S < e) && decide (s < E)

/-- The documents returned by the Firestore query in `getOverlappingBookings`
(`lib/bookings.ts:151`): bookings of the listing with status in
`{pending, confirmed}`. (The query's `orderBy('start_time')` only orders the
result; no claim depends on the order, and emptiness and membership are
unaffected, so the model keeps store order.) -/
def queryDocs (store : List Booking) (listingId : String) : List Booking :=
  store.filter (fun b => b.listing_id == listingId && accepted b)

/-- The pure content of `getOverlappingBookings` when the backing query
succeeds: query the listing's accepted bookings, then filter in memory for
overlap with `[startTime, endTime)`. -/
def getOverlappingBookingsOk (store : List Booking) (listingId : String)
    (startTime endTime : Int) : List Booking :=
  (queryDocs store listingId).filter
    (fun b => overlaps b.start_time b.end_time startTime endTime)

/-- `getOverlappingBookings` (`lib/bookings.ts:143`) with the outcome of the
raw `getDocs` call made explicit: on success it filters the documents in
memory for overlap; a `failed-precondition` FirebaseError (index not ready)
degrades to an empty result; every other error is rethrown. -/
def getOverlappingBookings (listingId : String) (startTime endTime : Int)
    (getDocsResult : Except QueryError (List Booking)) :
    Except QueryError (List Booking) :=
  match getDocsResult with
  | .ok docs =>
      .ok (docs.filter (fun b => overlaps b.start_time b.end_time startTime endTime))
  | .error e =>
      match e with
      | .firebase code =>
          if code = "failed-precondition" then .ok [] else .error (QueryError.firebase code)
      | .other msg => .error (QueryError.other msg)

/-- When the backing query succeeds on the listing's documents,
`getOverlappingBookings` returns exactly the pure overlap computation. -/
theorem getOverlappingBookings_ok_queryDocs (store : List Booking)
    (listingId : String) (startTime endTime : Int) :
    getOverlappingBookings listingId startTime endTime (.ok (queryDocs store listingId))
      = .ok (getOverlappingBookingsOk store listingId startTime endTime) := rfl

/-- Result of a successful `createBooking`: the updated `bookings` collection,
the new document's id, and the `booking_request` notification issued to the
listing's host. -/
structure CreateResult where
  store : List Booking
  bookingId : Nat
  notification : NotificationMsg
deriving DecidableEq, Repr

/-- `createBooking` (`lib/bookings.ts:31`). Requires an authenticated user and
always records that user's uid as `user_id`; coerces a missing/`NaN`
`total_price` to `0`; defaults a missing/empty `host_id` to `'unknown'`;
rejects `start_time >= end_time`; fetches the listing (error if absent) and
resolves `host_id` from it when it was `'unknown'`; appends the new `pending`
booking with `created_at := now`; issues a `booking_request` notification to
the listing's `host_id`. (The source's invalid-date branch guards unparseable
ISO strings, outside this model's `Int` time domain.) -/
def createBooking (currentUser : Option String) (listings : List Listing)
    (store : List Booking) (bookingData : BookingData) (now : Int) :
    Except BookingError CreateResult :=
  match currentUser with
  | none => .error .authRequired
  | some uid =>
      let hostId0 : String :=
        match bookingData.host_id with
        | none => "unknown"
        | some s => if s = "" then "unknown" else s
      let totalPrice : Int := bookingData.total_price.getD 0
      if bookingData.end_time ≤ bookingData.start_time then
        .error .startNotBeforeEnd
      else
        match listings.find? (fun l => l.id == bookingData.listing_id) with
        | none => .error .listingNotFound
        | some listing =>
            let hostId : String := if hostId0 = "unknown" then listing.host_id else hostId0
            let newBooking : Booking :=
              { id := store.length
                user_id := uid
                host_id := hostId
                listing_id := bookingData.listing_id
                start_time := bookingData.start_time
                end_time := bookingData.end_time
                total_price := totalPrice
                status := .pending
                created_at := now }
            let notif : NotificationMsg :=
              { user_id := listing.host_id
                ntype := "booking_request"
                message := "A new booking request has been made for your listing. Please review and respond."
                booking_id := store.length
                listing_id := bookingData.listing_id }
            .ok { store := store ++ [newBooking], bookingId := store.length, notification := notif }

/-- `store.find?` on the booking id: the `getDoc` of `updateBookingStatus`. -/
def findBooking (store : List Booking) (bookingId : Nat) : Option Booking :=
  store.find? (fun b => b.id == bookingId)

/-- The field merge `updateDoc` applies in `updateBookingStatus`
(`lib/bookings.ts:240`): set `status` and `updated_at`; stamp `cancelled_at`
only when the new status is `cancelled`. -/
def applyStatusUpdate (status : BookingStatus) (now : Int) (b : Booking) : Booking :=
  { b with
      status := status
      updated_at := some now
      cancelled_at := if status == .cancelled then some now else b.cancelled_at }

/-- The notification copy helper of `updateBookingStatus`
(`lib/bookings.ts:253`): the listing's title, defaulting to
`'this listing'` when the listing is absent or its title falsy. -/
def listingTitleFor (listings : List Listing) (listingId : String) : String :=
  match listings.find? (fun l => l.id == listingId) with
  | some l => if l.title = "" then "this listing" else l.title
  | none => "this listing"

/-- The notifications `updateBookingStatus` emits (`lib/bookings.ts:263`):
on `confirmed`, the booking's driver is told the booking was accepted; on
`cancelled` by the host, the driver is told it was declined; on `cancelled`
by the driver, the host is told it was cancelled by the driver; no other
case emits anything. -/
def statusNotifications (listings : List Listing) (bookingId : Nat)
    (status : BookingStatus) (userId : String) (bookingData : Booking) :
    List NotificationMsg :=
  let listingTitle := listingTitleFor listings bookingData.listing_id
  if status == .confirmed then
    [{ user_id := bookingData.user_id
       ntype := "booking_accepted"
       message := "Your booking for " ++ listingTitle ++ " has been accepted!"
       booking_id := bookingId
       listing_id := bookingData.listing_id }]
  else if status == .cancelled then
    if userId == bookingData.host_id then
      [{ user_id := bookingData.user_id
         ntype := "booking_declined"
         message := "Your booking for " ++ listingTitle ++ " has been declined."
         booking_id := bookingId
         listing_id := bookingData.listing_id }]
    else if userId == bookingData.user_id then
      [{ user_id := bookingData.host_id
         ntype := "booking_cancelled"
         message := "Booking for " ++ listingTitle ++ " has been cancelled by the driver."
         booking_id := bookingId
         listing_id := bookingData.listing_id }]
    else []
  else []

/-- `updateBookingStatus` (`lib/bookings.ts:224`). Fetches the booking (error
when absent), merges the status update (stamping `cancelled_at` on
cancellation), and emits the status notifications. Returns the updated
collection and the notifications issued. -/
def updateBookingStatus (listings : List Listing) (store : List Booking)
    (bookingId : Nat) (status : BookingStatus) (userId : String) (now : Int) :
    Except BookingError (List Booking × List NotificationMsg) :=
  match findBooking store bookingId with
  | none => .error .bookingNotFound
  | some bookingData =>
      let store' := store.map (fun b => if b.id == bookingId then applyStatusUpdate status now b else b)
      .ok (store', statusNotifications listings bookingId status userId bookingData)

/-- Milliseconds in a day, for the 15-day retention window. -/
def msPerDay : Int := 86400000

/-- `filterOldCancelledBookings` (`lib/bookings.ts:317`): keep every
non-cancelled booking; keep a cancelled booking when it has no `cancelled_at`
or its `cancelled_at` is after `now` minus 15 days. -/
def filterOldCancelledBookings (now : Int) (bookings : List Booking) : List Booking :=
  let fifteenDaysAgo : Int := now - 15 * msPerDay
  bookings.filter (fun booking =>
    if booking.status != .cancelled then
      true
    else
      match booking.cancelled_at with
      | none => true
      | some cancelledDate => decide (fifteenDaysAgo < cancelledDate))

/-- The booking-creation path of the listing detail screen's `handleBooking`
(`src/unnamed/part_007:148`), sequentially: query the listing's overlapping
bookings for the requested interval and abort when any exists; otherwise call
`createBooking`. Returns the updated collection and new id on success. (The
screen swallows a *failed* overlap query and proceeds anyway; this sequential
model takes the query outcome on the live store, i.e. the query succeeded.) -/
def handleBookingStep (listings : List Listing) (store : List Booking)
    (uid : String) (input : BookingData) (now : Int) : Option (List Booking × Nat) :=
  if getOverlappingBookingsOk store input.listing_id input.start_time input.end_time ≠ [] then
    none
  else
    match createBooking (some uid) listings store input now with
    | .ok r => some (r.store, r.bookingId)
    | .error _ => none

/-- One booking-repository operation of the kind quantified over by the
no-double-booking invariant claim: a `createBooking` call or an
`updateBookingStatus` call, each with its own actor and wall-clock time. -/
inductive Op where
  | create (currentUser : Option String) (input : BookingData) (now : Int)
  | update (bookingId : Nat) (status : BookingStatus) (userId : String) (now : Int)
deriving DecidableEq, Repr

/-- Run one operation against the `bookings` collection; `none` when the
operation fails (throws), `some store'` on success. -/
def applyOp (listings : List Listing) (store : List Booking) : Op → Option (List Booking)
  | .create currentUser input now =>
      match createBooking currentUser listings store input now with
      | .ok r => some r.store
      | .error _ => none
  | .update bookingId status userId now =>
      match updateBookingStatus listings store bookingId status userId now with
      | .ok (store', _) => some store'
      | .error _ => none

/-- Run a sequence of operations one at a time, each atomic; `some` exactly
when every operation succeeds. -/
def runOps (listings : List Listing) (store : List Booking) : List Op → Option (List Booking)
  | [] => some store
  | op :: ops =>
      match applyOp listings store op with
      | some store' => runOps listings store' ops
      | none => none

/-- Two bookings do not double-book: if they are on the same listing and both
count against availability, their half-open intervals do not overlap. -/
def conflictFree (b1 b2 : Booking) : Bool :=
  !(b1.listing_id == b2.listing_id && accepted b1 && accepted b2
      && overlaps b1.start_time b1.end_time b2.start_time b2.end_time)

/-- The spec's declared invariant: for every listing, no two bookings with
status in `{pending, confirmed}` have overlapping `[start_time, end_time)`
intervals. -/
def noDoubleBooking (store : List Booking) : Prop :=
  store.Pairwise (fun b1 b2 => conflictFree b1 b2 = true)

instance (store : List Booking) : Decidable (noDoubleBooking store) :=
  List.instDecidablePairwise store

/-- Guard under which an operation respects availability, mirroring how the
app actually issues operations: a create is preceded by the caller's
`getOverlappingBookings` pre-check coming back empty (`handleBooking`), and a
status update either moves the booking out of `{pending, confirmed}` or
targets a booking already in `{pending, confirmed}`. -/
def guardOk (store : List Booking) : Op → Bool
  | .create _ input _ =>
      decide (getOverlappingBookingsOk store input.listing_id input.start_time input.end_time = [])
  | .update bookingId status _ _ =>
      !(status == .pending || status == .confirmed)
        || store.all (fun b => !(b.id == bookingId) || accepted b)

/-- Run a sequence of operations, each preceded (sequentially, atomically) by
its guard. -/
def runGuarded (listings : List Listing) (store : List Booking) : List Op → Option (List Booking)
  | [] => some store
  | op :: ops =>
      if guardOk store op then
        match applyOp listings store op with
        | some store' => runGuarded listings store' ops
        | none => none
      else none

/-- C3: the overlap predicate used by `getOverlappingBookings` holds for
existing `[s,e)` and requested `[S,E)` iff `e > S` and `s < E`; it is true
for A=[10:00,11:00) vs B=[10:30,11:30) and false for A=[10:00,11:00) vs
B=[11:00,12:00) (half-open: touching boundaries do not overlap; times in
minutes). -/
theorem overlaps_spec :
    (∀ s e S E : Int, overlaps s e S E = true ↔ S < e ∧ s < E)
    ∧ overlaps 600 660 630 690 = true
    ∧ overlaps 600 660 660 720 = false := by
  refine ⟨fun s e S E => ?_, by decide, by decide⟩
  simp [overlaps]

/-- C7: `filterOldCancelledBookings` keeps exactly the bookings that are not
cancelled, or cancelled within the last 15 days, or cancelled with no
`cancelled_at` (conservatively retained), preserving relative order (the
result is a sublist of the input). -/
theorem filterOldCancelledBookings_spec (now : Int) (bookings : List Booking) :
    (filterOldCancelledBookings now bookings).Sublist bookings
    ∧ ∀ b : Booking, b ∈ filterOldCancelledBookings now bookings ↔
        b ∈ bookings ∧ (b.status ≠ .cancelled ∨ b.cancelled_at = none
          ∨ ∃ d, b.cancelled_at = some d ∧ now - 15 * msPerDay < d) := by
  constructor
  · exact List.filter_sublist _
  · intro b
    rw [filterOldCancelledBookings, List.mem_filter]
    constructor
    · rintro ⟨hmem, hkeep⟩
      refine ⟨hmem, ?_⟩
      by_cases hst : b.status = .cancelled
      · cases hca : b.cancelled_at with
        | none => exact Or.inr (Or.inl rfl)
        | some d =>
            refine Or.inr (Or.inr ⟨d, rfl, ?_⟩)
            simp only [hst, hca, bne_self_eq_false, Bool.false_eq_true, if_false] at hkeep
            exact of_decide_eq_true hkeep
      · exact Or.inl hst
    · rintro ⟨hmem, hkeep⟩
      refine ⟨hmem, ?_⟩
      by_cases hst : b.status = .cancelled
      · rcases hkeep with hkeep | hkeep | ⟨d, hd, hlt⟩
        · exact absurd hst hkeep
        · simp [hst, hkeep]
        · simp [hst, hd, hlt]
      · simp [bne, hst]

/-- C8: `filterOldCancelledBookings` is idempotent at a fixed current time. -/
theorem filterOldCancelledBookings_idempotent (now : Int) (bookings : List Booking) :
    filterOldCancelledBookings now (filterOldCancelledBookings now bookings)
      = filterOldCancelledBookings now bookings := by
  simp [filterOldCancelledBookings, List.filter_filter]

/-- C9: when the backing query fails with the index-not-ready
(`failed-precondition`) FirebaseError, `getOverlappingBookings` returns an
empty list; every other query error is propagated to the caller. -/
theorem getOverlappingBookings_error_handling (listingId : String) (S E : Int) :
    getOverlappingBookings listingId S E (.error (.firebase "failed-precondition")) = .ok []
    ∧ ∀ e : QueryError, e ≠ .firebase "failed-precondition" →
        getOverlappingBookings listingId S E (.error e) = .error e := by
  refine ⟨rfl, fun e he => ?_⟩
  cases e with
  | firebase code =>
      have hc : code ≠ "failed-precondition" := fun h => he (by rw [h])
      simp [getOverlappingBookings, hc]
  | other msg => rfl

/-- Witness for C9 at concrete inputs: the index-not-ready error degrades to
an empty result, and a distinct error is propagated. -/
theorem getOverlappingBookings_error_handling_witness :
    getOverlappingBookings "L1" 0 10 (.error (.firebase "failed-precondition")) = .ok []
    ∧ getOverlappingBookings "L1" 0 10 (.error (.other "network down"))
        = .error (.other "network down") :=
  ⟨(getOverlappingBookings_error_handling "L1" 0 10).1,
   (getOverlappingBookings_error_handling "L1" 0 10).2 (.other "network down") (by decide)⟩

/-! Concrete fixtures used by counterexamples and witnesses. -/

/-- A listing owned by `host1`. -/
def demoListing : Listing := { id := "L1", host_id := "host1", title := "Spot 1" }

/-- A `listings` collection holding the one demo listing. -/
def demoListings : List Listing := [demoListing]

/-- A pending booking of `demoListing` by `driver1` over `[100, 200)`. -/
def demoBooking : Booking :=
  { id := 1, user_id := "driver1", host_id := "host1", listing_id := "L1",
    start_time := 100, end_time := 200, total_price := 50,
    status := .pending, created_at := 50 }

/-- A `bookings` collection holding the one demo booking. -/
def demoStore : List Booking := [demoBooking]

/-- A booking request for `demoListing` over `[100, 200)` whose caller-supplied
`user_id` is not the authenticated user. -/
def reqInput : BookingData :=
  { listing_id := "L1", user_id := "attacker", host_id := none,
    start_time := 100, end_time := 200, total_price := some 50 }

/-- The booking request with a negative `total_price`. -/
def negPriceInput : BookingData := { reqInput with total_price := some (-50) }

/-- The booking request with `start_time > end_time`. -/
def badDatesInput : BookingData := { reqInput with start_time := 200, end_time := 100 }

/-- Shape of every successful `createBooking`: it appends exactly one booking,
whose `user_id` is the authenticated uid, whose interval, listing and price
come from the input (price coerced via `getD 0`), created `pending` at `now`. -/
theorem createBooking_ok_shape (u : String) (listings : List Listing)
    (store : List Booking) (input : BookingData) (now : Int) (r : CreateResult)
    (h : createBooking (some u) listings store input now = .ok r) :
    ∃ b : Booking, r.store = store ++ [b] ∧ b.user_id = u
      ∧ b.listing_id = input.listing_id
      ∧ b.start_time = input.start_time ∧ b.end_time = input.end_time
      ∧ b.status = .pending ∧ b.total_price = input.total_price.getD 0
      ∧ b.created_at = now := by
  simp only [createBooking] at h
  split at h
  · simp at h
  · split at h
    · simp at h
    · simp only [Except.ok.injEq] at h
      subst h
      exact ⟨_, rfl, rfl, rfl, rfl, rfl, rfl, rfl, rfl⟩

/-- C10: `createBooking` records the authenticated user's uid as the new
booking's `user_id`, ignoring any caller-supplied `user_id`, and fails without
writing anything when no user is authenticated (an error outcome carries no
store change in this model, mirroring the source throwing before `addDoc`). -/
theorem createBooking_authenticated_user (listings : List Listing)
    (store : List Booking) (input : BookingData) (now : Int) :
    createBooking none listings store input now = .error .authRequired
    ∧ ∀ (u : String) (r : CreateResult),
        createBooking (some u) listings store input now = .ok r →
        ∃ b : Booking, r.store = store ++ [b] ∧ b.user_id = u := by
  refine ⟨rfl, fun u r h => ?_⟩
  obtain ⟨b, hb, hu, -⟩ := createBooking_ok_shape u listings store input now r h
  exact ⟨b, hb, hu⟩

/-- Witness for C10: unauthenticated creation fails, and the booking created
by `driver1` from a request whose `user_id` field says `attacker` is recorded
with `user_id = driver1`. -/
theorem createBooking_authenticated_user_witness :
    createBooking none demoListings [] reqInput 1000 = .error .authRequired
    ∧ ∃ b : Booking,
        ({ store := [{ id := 0, user_id := "driver1", host_id := "host1",
                       listing_id := "L1", start_time := 100, end_time := 200,
                       total_price := 50, status := .pending, created_at := 1000 }],
           bookingId := 0,
           notification := { user_id := "host1", ntype := "booking_request",
                             message := "A new booking request has been made for your listing. Please review and respond.",
                             booking_id := 0, listing_id := "L1" } } : CreateResult).store
          = [] ++ [b] ∧ b.user_id = "driver1" :=
  ⟨(createBooking_authenticated_user demoListings [] reqInput 1000).1,
   (createBooking_authenticated_user demoListings [] reqInput 1000).2 "driver1" _ rfl⟩

/-- C4 (amended): `createBooking` rejects `start_time >= end_time` with a
validation error and no write; a successful creation implies
`start_time < end_time`; and `total_price` is not validated but coerced — the
created booking carries `input.total_price.getD 0`, negative values included. -/
theorem createBooking_validation (u : String) (listings : List Listing)
    (store : List Booking) (input : BookingData) (now : Int) :
    (input.end_time ≤ input.start_time →
       createBooking (some u) listings store input now = .error .startNotBeforeEnd)
    ∧ (∀ r : CreateResult, createBooking (some u) listings store input now = .ok r →
        input.start_time < input.end_time)
    ∧ (∀ r : CreateResult, createBooking (some u) listings store input now = .ok r →
        ∃ b : Booking, r.store = store ++ [b]
          ∧ b.total_price = input.total_price.getD 0) := by
  refine ⟨fun hle => ?_, fun r h => ?_, fun r h => ?_⟩
  · simp only [createBooking, if_pos hle]
  · by_contra hlt
    have hle : input.end_time ≤ input.start_time := by omega
    simp only [createBooking, if_pos hle] at h
    exact Except.noConfusion h
  · obtain ⟨b, hb, -, -, -, -, -, hp, -⟩ :=
      createBooking_ok_shape u listings store input now r h
    exact ⟨b, hb, hp⟩

/-- Counterexample for C4: `createBooking` accepts a negative `total_price`
(−50) and writes the booking, so it does not validate `total_price ≥ 0`. -/
theorem createBooking_negative_price_counterexample :
    (-50 : Int) < 0
    ∧ createBooking (some "driver1") demoListings [] negPriceInput 1000
        = .ok { store := [{ id := 0, user_id := "driver1", host_id := "host1",
                            listing_id := "L1", start_time := 100, end_time := 200,
                            total_price := -50, status := .pending, created_at := 1000 }],
                bookingId := 0,
                notification := { user_id := "host1", ntype := "booking_request",
                                  message := "A new booking request has been made for your listing. Please review and respond.",
                                  booking_id := 0, listing_id := "L1" } } :=
  ⟨by decide, rfl⟩

/-- Witness for C4 (amended): reversed dates are rejected, and a successful
creation at the demo request records the coerced price. -/
theorem createBooking_validation_witness :
    createBooking (some "driver1") demoListings [] badDatesInput 1000
        = .error .startNotBeforeEnd
    ∧ reqInput.start_time < reqInput.end_time
    ∧ ∃ b : Booking,
        ({ store := [{ id := 0, user_id := "driver1", host_id := "host1",
                       listing_id := "L1", start_time := 100, end_time := 200,
                       total_price := 50, status := .pending, created_at := 1000 }],
           bookingId := 0,
           notification := { user_id := "host1", ntype := "booking_request",
                             message := "A new booking request has been made for your listing. Please review and respond.",
                             booking_id := 0, listing_id := "L1" } } : CreateResult).store
          = [] ++ [b] ∧ b.total_price = reqInput.total_price.getD 0 :=
  ⟨(createBooking_validation "driver1" demoListings [] badDatesInput 1000).1 (by decide),
   (createBooking_validation "driver1" demoListings [] reqInput 1000).2.1 _ rfl,
   (createBooking_validation "driver1" demoListings [] reqInput 1000).2.2 _ rfl⟩

/-- Counterexample for C2: `createBooking` queries no bookings and checks no
overlap — with an overlapping pending booking already in the store for the
same listing and interval, `createBooking` for that very interval succeeds. -/
theorem createBooking_no_overlap_check_counterexample :
    getOverlappingBookingsOk demoStore "L1" 100 200 = [demoBooking]
    ∧ createBooking (some "driver2") demoListings demoStore reqInput 1000
        = .ok { store := [demoBooking,
                          { id := 1, user_id := "driver2", host_id := "host1",
                            listing_id := "L1", start_time := 100, end_time := 200,
                            total_price := 50, status := .pending, created_at := 1000 }],
                bookingId := 1,
                notification := { user_id := "host1", ntype := "booking_request",
                                  message := "A new booking request has been made for your listing. Please review and respond.",
                                  booking_id := 1, listing_id := "L1" } } :=
  ⟨by decide, rfl⟩

/-- C2 (amended): the overlap pre-check lives in the caller — a successful
`handleBooking` creation step implies the `getOverlappingBookings` query over
the listing's `{pending, confirmed}` bookings, filtered in memory for overlap
with the requested interval, was empty at the time of the check, and the
booking was then created by `createBooking`. -/
theorem handleBooking_overlap_precheck (listings : List Listing)
    (store : List Booking) (uid : String) (input : BookingData) (now : Int)
    (result : List Booking × Nat)
    (h : handleBookingStep listings store uid input now = some result) :
    getOverlappingBookingsOk store input.listing_id input.start_time input.end_time = []
    ∧ ∃ r : CreateResult, createBooking (some uid) listings store input now = .ok r
        ∧ result = (r.store, r.bookingId) := by
  unfold handleBookingStep at h
  split at h
  · exact Option.noConfusion h
  · next hck =>
      refine ⟨not_not.mp hck, ?_⟩
      split at h
      · next r hr => exact ⟨r, hr, (Option.some.injEq _ _ ▸ h).symm⟩
      · exact Option.noConfusion h

/-- Witness for C2 (amended): a successful `handleBooking` step on the empty
store implies its overlap pre-check came back empty and `createBooking` ran. -/
theorem handleBooking_overlap_precheck_witness :
    getOverlappingBookingsOk [] reqInput.listing_id reqInput.start_time reqInput.end_time = []
    ∧ ∃ r : CreateResult, createBooking (some "driver1") demoListings [] reqInput 1000 = .ok r
        ∧ (([{ id := 0, user_id := "driver1", host_id := "host1", listing_id := "L1",
               start_time := 100, end_time := 200, total_price := 50,
               status := .pending, created_at := 1000 }] : List Booking), (0 : Nat))
            = (r.store, r.bookingId) :=
  handleBooking_overlap_precheck demoListings [] "driver1" reqInput 1000 _ rfl

/-- Counterexample for C5: `updateBookingStatus` to `completed` on an existing
booking emits no notification at all, so not every `newStatus` yields one. -/
theorem updateBookingStatus_completed_no_notification :
    findBooking demoStore 1 = some demoBooking
    ∧ updateBookingStatus demoListings demoStore 1 .completed "host1" 2000
        = .ok ([{ demoBooking with status := .completed, updated_at := some 2000 }], []) :=
  ⟨rfl, rfl⟩

/-- C5 (amended): when `updateBookingStatus` succeeds, its notification is
determined by `newStatus` and the acting user: `confirmed` notifies the
booking's driver with the accepted message (whoever acts); `cancelled` by the
host notifies the driver with the declined message; `cancelled` by the driver
notifies the host with the cancelled-by-the-driver message; every other case
(`pending`, `completed`, or cancellation by anyone else) emits nothing. -/
theorem updateBookingStatus_notifications (listings : List Listing)
    (store : List Booking) (bookingId : Nat) (status : BookingStatus)
    (userId : String) (now : Int) (b : Booking) (store' : List Booking)
    (notifs : List NotificationMsg)
    (hfind : findBooking store bookingId = some b)
    (hrun : updateBookingStatus listings store bookingId status userId now
        = .ok (store', notifs)) :
    (status = .confirmed →
       notifs = [{ user_id := b.user_id, ntype := "booking_accepted",
                   message := "Your booking for " ++ listingTitleFor listings b.listing_id
                     ++ " has been accepted!",
                   booking_id := bookingId, listing_id := b.listing_id }])
    ∧ (status = .cancelled → userId = b.host_id →
       notifs = [{ user_id := b.user_id, ntype := "booking_declined",
                   message := "Your booking for " ++ listingTitleFor listings b.listing_id
                     ++ " has been declined.",
                   booking_id := bookingId, listing_id := b.listing_id }])
    ∧ (status = .cancelled → userId ≠ b.host_id → userId = b.user_id →
       notifs = [{ user_id := b.host_id, ntype := "booking_cancelled",
                   message := "Booking for " ++ listingTitleFor listings b.listing_id
                     ++ " has been cancelled by the driver.",
                   booking_id := bookingId, listing_id := b.listing_id }])
    ∧ ((status = .pending ∨ status = .completed) → notifs = [])
    ∧ (status = .cancelled → userId ≠ b.host_id → userId ≠ b.user_id → notifs = []) := by
  unfold updateBookingStatus at hrun
  rw [hfind] at hrun
  simp only [Except.ok.injEq, Prod.mk.injEq] at hrun
  obtain ⟨-, hn⟩ := hrun
  subst hn
  refine ⟨?_, ?_, ?_, ?_, ?_⟩
  · rintro rfl
    simp [statusNotifications]
  · rintro rfl rfl
    simp [statusNotifications]
  · rintro rfl hne heq
    subst heq
    simp [statusNotifications, beq_iff_eq, hne]
  · rintro (rfl | rfl) <;> simp [statusNotifications]
  · rintro rfl hne1 hne2
    simp [statusNotifications, beq_iff_eq, hne1, hne2]

/-- Witness for C5 (amended): confirming the demo booking notifies its driver
with the accepted copy. -/
theorem updateBookingStatus_notifications_witness :
    statusNotifications demoListings 1 .confirmed "host1" demoBooking
      = [{ user_id := demoBooking.user_id, ntype := "booking_accepted",
           message := "Your booking for " ++ listingTitleFor demoListings demoBooking.listing_id
             ++ " has been accepted!",
           booking_id := 1, listing_id := demoBooking.listing_id }] :=
  (updateBookingStatus_notifications demoListings demoStore 1 .confirmed "host1" 2000
      demoBooking
      [applyStatusUpdate .confirmed 2000 demoBooking]
      (statusNotifications demoListings 1 .confirmed "host1" demoBooking)
      rfl rfl).1 rfl

/-- C6: a successful `updateBookingStatus` to `cancelled` stamps the target
booking's `cancelled_at` with the current time, which is at least its
`created_at` whenever the clock has not run backwards since creation; any
other `newStatus` leaves every booking's `cancelled_at` unchanged. -/
theorem updateBookingStatus_cancelled_at (listings : List Listing)
    (store : List Booking) (bookingId : Nat) (status : BookingStatus)
    (userId : String) (now : Int) (store' : List Booking)
    (notifs : List NotificationMsg)
    (hclock : ∀ b ∈ store, b.created_at ≤ now)
    (hrun : updateBookingStatus listings store bookingId status userId now
        = .ok (store', notifs)) :
    (status = .cancelled → ∀ b' ∈ store', b'.id = bookingId →
       b'.cancelled_at = some now ∧ b'.created_at ≤ now)
    ∧ (status ≠ .cancelled →
       store'.map Booking.cancelled_at = store.map Booking.cancelled_at) := by
  unfold updateBookingStatus at hrun
  split at hrun
  · exact Except.noConfusion hrun
  · simp only [Except.ok.injEq, Prod.mk.injEq] at hrun
    obtain ⟨hs, -⟩ := hrun
    subst hs
    constructor
    · rintro rfl b' hb' hid
      obtain ⟨b, hb, rfl⟩ := List.mem_map.mp hb'
      by_cases hbid : b.id == bookingId
      · simp only [hbid, if_true, applyStatusUpdate]
        exact ⟨by simp, hclock b hb⟩
      · rw [if_neg (by simpa using hbid)] at hid ⊢
        exact absurd hid (by simpa using hbid)
    · intro hne
      rw [List.map_map]
      apply List.map_congr_left
      intro b hb
      by_cases hbid : b.id == bookingId
      · simp only [Function.comp_apply, hbid, if_true, applyStatusUpdate]
        simp [hne]
      · rw [Function.comp_apply, if_neg (by simpa using hbid)]

/-- Witness for C6: cancelling the demo booking stamps `cancelled_at := 2000`,
not before its creation time; confirming it leaves `cancelled_at` as it was. -/
theorem updateBookingStatus_cancelled_at_witness :
    ((applyStatusUpdate .cancelled 2000 demoBooking).cancelled_at = some 2000
      ∧ (applyStatusUpdate .cancelled 2000 demoBooking).created_at ≤ 2000)
    ∧ [applyStatusUpdate .confirmed 2000 demoBooking].map Booking.cancelled_at
        = demoStore.map Booking.cancelled_at :=
  ⟨(updateBookingStatus_cancelled_at demoListings demoStore 1 .cancelled "driver1" 2000
      [applyStatusUpdate .cancelled 2000 demoBooking]
      (statusNotifications demoListings 1 .cancelled "driver1" demoBooking)
      (by decide) rfl).1 rfl
      (applyStatusUpdate .cancelled 2000 demoBooking) (by simp) rfl,
   (updateBookingStatus_cancelled_at demoListings demoStore 1 .confirmed "host1" 2000
      [applyStatusUpdate .confirmed 2000 demoBooking]
      (statusNotifications demoListings 1 .confirmed "host1" demoBooking)
      (by decide) rfl).2 (by decide)⟩

/-- `conflictFree` unfolded into implication form. -/
theorem conflictFree_iff (b1 b2 : Booking) :
    conflictFree b1 b2 = true ↔
      (b1.listing_id = b2.listing_id → accepted b1 = true → accepted b2 = true →
        overlaps b1.start_time b1.end_time b2.start_time b2.end_time = false) := by
  unfold conflictFree
  by_cases hl : b1.listing_id = b2.listing_id <;>
    cases ha1 : accepted b1 <;> cases ha2 : accepted b2 <;>
      cases ho : overlaps b1.start_time b1.end_time b2.start_time b2.end_time <;>
        simp [hl, ha1, ha2, ho]

/-- An empty overlap query means no accepted booking of the listing overlaps
the requested interval. -/
theorem getOverlappingBookingsOk_eq_nil (store : List Booking) (L : String)
    (S E : Int) :
    getOverlappingBookingsOk store L S E = [] ↔
      ∀ b ∈ store, b.listing_id = L → accepted b = true →
        overlaps b.start_time b.end_time S E = false := by
  unfold getOverlappingBookingsOk queryDocs
  rw [List.filter_eq_nil_iff]
  constructor
  · intro h b hb hl ha
    have hq : b ∈ store.filter (fun b => b.listing_id == L && accepted b) :=
      List.mem_filter.mpr ⟨hb, by simp [hl, ha]⟩
    simpa using h b hq
  · intro h b hq
    obtain ⟨hb, hcond⟩ := List.mem_filter.mp hq
    simp only [Bool.and_eq_true, beq_iff_eq] at hcond
    simp [h b hb hcond.1 hcond.2]

/-- The in-place status update changes neither the listing nor the interval
of any stored booking. -/
theorem statusUpdateFun_preserves (bookingId : Nat) (status : BookingStatus)
    (now : Int) (x : Booking) :
    ((if x.id == bookingId then applyStatusUpdate status now x else x).listing_id
        = x.listing_id)
    ∧ ((if x.id == bookingId then applyStatusUpdate status now x else x).start_time
        = x.start_time)
    ∧ ((if x.id == bookingId then applyStatusUpdate status now x else x).end_time
        = x.end_time) := by
  by_cases h : x.id == bookingId <;> simp [h, applyStatusUpdate]

/-- A guarded status update never turns a booking that did not count against
availability into one that does. -/
theorem statusUpdateFun_accepted (store : List Booking) (bookingId : Nat)
    (status : BookingStatus) (userId : String) (now : Int)
    (hguard : guardOk store (.update bookingId status userId now) = true)
    (x : Booking) (hx : x ∈ store)
    (hfx : accepted (if x.id == bookingId then applyStatusUpdate status now x else x) = true) :
    accepted x = true := by
  by_cases hid : x.id == bookingId
  · rw [if_pos hid] at hfx
    have hstat : (status == BookingStatus.pending || status == BookingStatus.confirmed) = true := hfx
    simp only [guardOk] at hguard
    rw [hstat] at hguard
    simp only [Bool.not_true, Bool.false_or, List.all_eq_true] at hguard
    have := hguard x hx
    rw [hid] at this
    simpa using this
  · rwa [if_neg hid] at hfx

/-- A guarded, successful operation preserves the no-double-booking
invariant. -/
theorem applyOp_guard_preserves (listings : List Listing)
    (store s' : List Booking) (op : Op)
    (hguard : guardOk store op = true)
    (happ : applyOp listings store op = some s')
    (hinv : noDoubleBooking store) : noDoubleBooking s' := by
  cases op with
  | create currentUser input now =>
      simp only [applyOp] at happ
      split at happ
      · next r hr =>
          injection happ with happ
          subst happ
          cases currentUser with
          | none => simp [createBooking] at hr
          | some u =>
              obtain ⟨b, hstore, -, hlid, hst, hen, -, -, -⟩ :=
                createBooking_ok_shape u listings store input now r hr
              rw [hstore]
              rw [noDoubleBooking, List.pairwise_append]
              refine ⟨hinv, List.pairwise_singleton _ _, ?_⟩
              intro a ha b' hb'
              rw [List.mem_singleton] at hb'
              subst hb'
              rw [conflictFree_iff]
              intro hl2 ha1 _
              have hempty : getOverlappingBookingsOk store input.listing_id
                  input.start_time input.end_time = [] := of_decide_eq_true hguard
              have hov := (getOverlappingBookingsOk_eq_nil store input.listing_id
                  input.start_time input.end_time).mp hempty a ha (hl2.trans hlid) ha1
              rw [hst, hen]
              exact hov
      · exact Option.noConfusion happ
  | update bookingId status userId now =>
      simp only [applyOp] at happ
      split at happ
      · next s1 notifs hr =>
          injection happ with happ
          subst happ
          unfold updateBookingStatus at hr
          split at hr
          · exact Except.noConfusion hr
          · simp only [Except.ok.injEq, Prod.mk.injEq] at hr
            obtain ⟨hs, -⟩ := hr
            rw [← hs]
            rw [noDoubleBooking, List.pairwise_map]
            refine hinv.imp_of_mem ?_
            intro a b ha hb hab
            rw [conflictFree_iff] at hab ⊢
            obtain ⟨hla, hsa, hea⟩ := statusUpdateFun_preserves bookingId status now a
            obtain ⟨hlb, hsb, heb⟩ := statusUpdateFun_preserves bookingId status now b
            intro hl h1 h2
            rw [hla, hlb] at hl
            rw [hsa, hea, hsb, heb]
            exact hab hl
              (statusUpdateFun_accepted store bookingId status userId now hguard a ha h1)
              (statusUpdateFun_accepted store bookingId status userId now hguard b hb h2)
      · exact Option.noConfusion happ

/-- Two sequential, unguarded `createBooking` calls for the same interval on
the same listing. -/
def overlappingCreates : List Op :=
  [.create (some "driver1") reqInput 1000, .create (some "driver2") reqInput 1100]

/-- The store those two calls produce: both bookings pending on `L1` over
`[100, 200)`. -/
def doubleBookedStore : List Booking :=
  [{ id := 0, user_id := "driver1", host_id := "host1", listing_id := "L1",
     start_time := 100, end_time := 200, total_price := 50,
     status := .pending, created_at := 1000 },
   { id := 1, user_id := "driver2", host_id := "host1", listing_id := "L1",
     start_time := 100, end_time := 200, total_price := 50,
     status := .pending, created_at := 1100 }]

/-- Counterexample for C1: two successful `createBooking` operations, executed
one at a time from the empty store, produce two pending bookings of the same
listing over the same `[100, 200)` interval — `createBooking` never checks for
overlap, so the invariant fails even without concurrency. -/
theorem noDoubleBooking_counterexample :
    runOps demoListings [] overlappingCreates = some doubleBookedStore
    ∧ ¬ noDoubleBooking doubleBookedStore :=
  ⟨rfl, by decide⟩

/-- C1 (amended): the invariant holds only for guarded operation sequences —
every create preceded (atomically) by the caller's empty overlap pre-check and
every status update either leaving `{pending, confirmed}` or targeting a
booking already in it. Any state guardedly reachable from a state satisfying
the no-double-booking invariant still satisfies it. -/
theorem runGuarded_preserves_noDoubleBooking (listings : List Listing)
    (ops : List Op) :
    ∀ store store' : List Booking, noDoubleBooking store →
      runGuarded listings store ops = some store' → noDoubleBooking store' := by
  induction ops with
  | nil =>
      intro store store' hinv hrun
      rw [runGuarded] at hrun
      injection hrun with h
      exact h ▸ hinv
  | cons op ops ih =>
      intro store store' hinv hrun
      rw [runGuarded] at hrun
      split at hrun
      · next hguard =>
          split at hrun
          · next s1 happ =>
              exact ih s1 store'
                (applyOp_guard_preserves listings store s1 op hguard happ hinv) hrun
          · exact Option.noConfusion hrun
      · exact Option.noConfusion hrun

/-- Witness for C1 (amended): one guarded create from the empty store reaches
a store that satisfies the invariant. -/
theorem runGuarded_preserves_noDoubleBooking_witness :
    noDoubleBooking
      [{ id := 0, user_id := "driver1", host_id := "host1", listing_id := "L1",
         start_time := 100, end_time := 200, total_price := 50,
         status := .pending, created_at := 1000 }] :=
  runGuarded_preserves_noDoubleBooking demoListings
    [.create (some "driver1") reqInput 1000] []
    [{ id := 0, user_id := "driver1", host_id := "host1", listing_id := "L1",
       start_time := 100, end_time := 200, total_price := 50,
       status := .pending, created_at := 1000 }]
    (by decide) rfl

end ParkPal
